import Mathlib

/-
Shallow embedding of the wnm_sharepoint_client repository
(src/wnm_sharepoint_client/client.py and auth.py), used to check the
specification's claims about the safe move operation, the size guard and
the gateway's credential handling.

Remote files are modelled as a map from logical path to byte content.
Each remote HTTP call either succeeds with the backend's documented
semantics or fails (non-2xx response or transport error); a failed call
leaves the remote store unchanged, and the backend's PATCH relocation is
atomic, as the Graph API documents.  Per-call failures are injected
through environment records so that every code path of the Python source
is reachable in the model.  Python floats are idealised as exact rational
arithmetic.
-/

namespace Wnm

/-- Byte content of one remote file. -/
abbrev Bytes := List ℕ

/-- The remote drive: logical path ↦ file content. -/
abbrev Store := String → Option Bytes

/-- Function `get_dynamic_max_safe_size` of client.py (lines 420-425):
`int(psutil.virtual_memory().available * fraction)`.  The
available-memory value queried from `psutil` is the explicit argument
`available_bytes`; the float arithmetic is idealised as exact rational
arithmetic, and Python `int()` truncates toward zero — the exact product
`available_bytes * fraction` equals `(available_bytes * fraction.num) /
fraction.den`, and truncating integer division of that numerator by that
(positive) denominator is exactly `int()` of the product. -/
def get_dynamic_max_safe_size (available_bytes : ℕ) (fraction : ℚ) : ℤ :=
  ((available_bytes : ℤ) * fraction.num).tdiv (fraction.den : ℤ)

/-- Default value of the `fraction` parameter (`0.2` in the source). -/
def defaultFraction : ℚ := mkRat 1 5

/-- On nonnegative fractions, Python `int()` truncation agrees with the
floor of the exact product. -/
lemma get_dynamic_max_safe_size_eq_floor (a : ℕ) (f : ℚ) (hf : 0 ≤ f) :
    get_dynamic_max_safe_size a f = ⌊(a : ℚ) * f⌋ := by
  have hnum : 0 ≤ f.num := Rat.num_nonneg.mpr hf
  have hn : (0 : ℤ) ≤ (a : ℤ) * f.num := mul_nonneg (by positivity) hnum
  have hprod : (a : ℚ) * f = (((a : ℤ) * f.num : ℤ) : ℚ) / ((f.den : ℕ) : ℚ) := by
    conv_lhs => rw [← Rat.num_div_den f]
    push_cast
    ring
  unfold get_dynamic_max_safe_size
  rw [hprod, Rat.floor_intCast_div_natCast]
  exact Int.tdiv_eq_ediv hn (by positivity)

/-- On nonpositive fractions, Python `int()` truncation agrees with the
ceiling of the exact product. -/
lemma get_dynamic_max_safe_size_eq_ceil (a : ℕ) (f : ℚ) (hf : f ≤ 0) :
    get_dynamic_max_safe_size a f = ⌈(a : ℚ) * f⌉ := by
  have hnum : f.num ≤ 0 := Rat.num_nonpos.mpr hf
  have hn : (a : ℤ) * f.num ≤ 0 := by
    calc (a : ℤ) * f.num ≤ (a : ℤ) * 0 :=
          mul_le_mul_of_nonneg_left hnum (by positivity)
      _ = 0 := mul_zero _
  have hprod : (a : ℚ) * f = (((a : ℤ) * f.num : ℤ) : ℚ) / ((f.den : ℕ) : ℚ) := by
    conv_lhs => rw [← Rat.num_div_den f]
    push_cast
    ring
  unfold get_dynamic_max_safe_size
  rw [hprod]
  calc ((a : ℤ) * f.num).tdiv (f.den : ℤ)
      = -((-((a : ℤ) * f.num)).tdiv (f.den : ℤ)) := by rw [Int.neg_tdiv, neg_neg]
    _ = -((-((a : ℤ) * f.num)) / (f.den : ℤ)) := by
        rw [Int.tdiv_eq_ediv (by omega) (by positivity)]
    _ = -⌊((-((a : ℤ) * f.num) : ℤ) : ℚ) / ((f.den : ℕ) : ℚ)⌋ := by
        rw [Rat.floor_intCast_div_natCast]
    _ = ⌈(((a : ℤ) * f.num : ℤ) : ℚ) / ((f.den : ℕ) : ℚ)⌉ := by
        rw [show ((-((a : ℤ) * f.num) : ℤ) : ℚ)
              = -(((a : ℤ) * f.num : ℤ) : ℚ) by push_cast; ring,
          neg_div, Int.floor_neg, neg_neg]

/-- The computed ceiling is never negative for a nonnegative fraction. -/
lemma get_dynamic_max_safe_size_nonneg (a : ℕ) (f : ℚ) (hf : 0 ≤ f) :
    0 ≤ get_dynamic_max_safe_size a f := by
  rw [get_dynamic_max_safe_size_eq_floor a f hf]
  exact Int.floor_nonneg.mpr (mul_nonneg (by positivity) hf)

/- ### Credential provider (auth.py) and a representative gateway operation -/

/-- Cached credential state of `TokenManager` (auth.py): fields
`self.token` and `self.expiry`. -/
structure TokenState where
  token : Option String
  expiry : ℤ
  deriving DecidableEq

/-- Staleness condition of `TokenManager.get_token`
(`if not self.token or time.time() >= self.expiry`); Python `not` is true
both for `None` and for the empty string. -/
def tokenStale (ts : TokenState) (now : ℤ) : Bool :=
  (match ts.token with
   | none => true
   | some t => t == "") || decide (ts.expiry ≤ now)

/-- Environment of one `get_token` call: current clock value and the
behaviour of the token-endpoint POST issued by `refresh_token`. -/
structure AuthEnv where
  now : ℤ
  refreshFault : Bool
  access_token : String
  expires_in : ℤ
  deriving DecidableEq

/-- Result of one `get_token` call: the returned token (`none` when the
refresh request raised), the updated cached state, and how many refresh
requests were issued during the call. -/
structure TokenResult where
  result : Option String
  state : TokenState
  refreshes : ℕ
  deriving DecidableEq

/-- Method `TokenManager.get_token` (auth.py lines 28-32) together with
`refresh_token` (lines 34-49): refresh exactly when the cached token is
absent, empty or past its expiry; on refresh, `self.expiry` is set 60
seconds early (`time.time() + expires_in - 60`). -/
def get_token (ts : TokenState) (env : AuthEnv) : TokenResult :=
  if tokenStale ts env.now then
    if env.refreshFault then
      { result := none, state := ts, refreshes := 1 }
    else
      { result := some env.access_token,
        state := { token := some env.access_token,
                   expiry := env.now + env.expires_in - 60 },
        refreshes := 1 }
  else
    { result := some (ts.token.getD ""), state := ts, refreshes := 0 }

/-- Environment of one `list_items` call: the behaviour of the token
manager and of the single GET request to the drive. -/
structure ListEnv where
  auth : AuthEnv
  status : ℕ
  names : List String
  deriving DecidableEq

/-- Outcome of one `list_items` call. -/
inductive ListOutcome
  | ok (names : List String)
  | authError
  | httpError (status : ℕ)
  deriving DecidableEq

/-- Result of one `list_items` call, with the number of refresh requests
and of GET requests issued. -/
structure ListResult where
  outcome : ListOutcome
  state : TokenState
  refreshes : ℕ
  requests : ℕ
  deriving DecidableEq

/-- Method `SharePointClient.list_items` (client.py lines 42-52): obtain
headers from the token manager, issue one GET, and let
`raise_for_status` surface any 4xx/5xx response (401 included)
immediately.  The source contains no response-triggered refresh and no
retry of the request. -/
def list_items (ts : TokenState) (env : ListEnv) : ListResult :=
  let tr := get_token ts env.auth
  match tr.result with
  | none =>
      { outcome := .authError, state := tr.state,
        refreshes := tr.refreshes, requests := 0 }
  | some _ =>
      if 400 ≤ env.status ∧ env.status < 600 then
        { outcome := .httpError env.status, state := tr.state,
          refreshes := tr.refreshes, requests := 1 }
      else
        { outcome := .ok env.names, state := tr.state,
          refreshes := tr.refreshes, requests := 1 }

/- ### Claims C7 and C8: the size guard -/

/-- C7: for every (nonnegative) fraction, `get_dynamic_max_safe_size`
returns the floor of `available_bytes * fraction`, and the default
fraction is `0.2`.  Purity is structural in this embedding: the result
depends on nothing but the queried available-memory value and the
fraction, and the move operation recomputes it from the value queried
during that attempt. -/
theorem get_dynamic_max_safe_size_floor (a : ℕ) (f : ℚ) (hf : 0 ≤ f) :
    get_dynamic_max_safe_size a f = ⌊(a : ℚ) * f⌋ ∧ defaultFraction = 1 / 5 := by
  refine ⟨get_dynamic_max_safe_size_eq_floor a f hf, ?_⟩
  norm_num [defaultFraction, Rat.mkRat_eq_div]

/-- Witness for C7 at the default fraction. -/
theorem get_dynamic_max_safe_size_floor_witness :
    (0 : ℚ) ≤ 1 / 5
      ∧ (get_dynamic_max_safe_size 100 (1 / 5) = ⌊(100 : ℚ) * (1 / 5)⌋
          ∧ defaultFraction = 1 / 5) :=
  ⟨by norm_num, get_dynamic_max_safe_size_floor 100 (1 / 5) (by norm_num)⟩

/-- C8: for fixed available memory the size ceiling is monotone in the
fraction, and at fraction `1.0` it equals the available memory exactly. -/
theorem get_dynamic_max_safe_size_monotone (a : ℕ) :
    (∀ f₁ f₂ : ℚ, f₁ ≤ f₂ →
        get_dynamic_max_safe_size a f₁ ≤ get_dynamic_max_safe_size a f₂)
      ∧ get_dynamic_max_safe_size a 1 = (a : ℤ) := by
  constructor
  · intro f₁ f₂ h
    have hm : (a : ℚ) * f₁ ≤ (a : ℚ) * f₂ :=
      mul_le_mul_of_nonneg_left h (by positivity)
    rcases le_or_lt 0 f₁ with h1 | h1
    · rw [get_dynamic_max_safe_size_eq_floor a f₁ h1,
        get_dynamic_max_safe_size_eq_floor a f₂ (le_trans h1 h)]
      exact Int.floor_mono hm
    · rcases le_or_lt 0 f₂ with h2 | h2
      · rw [get_dynamic_max_safe_size_eq_ceil a f₁ (le_of_lt h1),
          get_dynamic_max_safe_size_eq_floor a f₂ h2]
        have hx1 : (a : ℚ) * f₁ ≤ 0 := by
          calc (a : ℚ) * f₁ ≤ (a : ℚ) * 0 :=
                mul_le_mul_of_nonneg_left (le_of_lt h1) (by positivity)
            _ = 0 := mul_zero _
        calc ⌈(a : ℚ) * f₁⌉ ≤ 0 := by
              rw [show (0 : ℤ) = ⌈(0 : ℚ)⌉ by simp]
              exact Int.ceil_mono hx1
          _ ≤ ⌊(a : ℚ) * f₂⌋ :=
              Int.floor_nonneg.mpr (mul_nonneg (by positivity) h2)
      · rw [get_dynamic_max_safe_size_eq_ceil a f₁ (le_of_lt h1),
          get_dynamic_max_safe_size_eq_ceil a f₂ (le_of_lt h2)]
        exact Int.ceil_mono hm
  · rw [get_dynamic_max_safe_size_eq_floor a 1 (by norm_num), mul_one]
    exact Int.floor_natCast a

/-- Witness for C8 at concrete fractions. -/
theorem get_dynamic_max_safe_size_monotone_witness :
    (1 / 5 : ℚ) ≤ 1 / 2
      ∧ get_dynamic_max_safe_size 7 (1 / 5) ≤ get_dynamic_max_safe_size 7 (1 / 2)
      ∧ get_dynamic_max_safe_size 7 1 = (7 : ℤ) :=
  ⟨by norm_num,
    (get_dynamic_max_safe_size_monotone 7).1 (1 / 5) (1 / 2) (by norm_num),
    (get_dynamic_max_safe_size_monotone 7).2⟩

/- ### Claim C3: no 401-triggered refresh-and-retry exists in the code -/

/-- C3 (counterexample): with a fresh cached token, a 401 response to the
listing GET is surfaced directly; no credential refresh happens and the
request is not retried (one single request is issued), contradicting the
claim that a 401-class response triggers one refresh and a retry. -/
theorem list_items_401_no_refresh_no_retry :
    (list_items ⟨some "tok", 1000⟩ ⟨⟨0, false, "fresh", 3600⟩, 401, []⟩).outcome
        = ListOutcome.httpError 401
      ∧ (list_items ⟨some "tok", 1000⟩ ⟨⟨0, false, "fresh", 3600⟩, 401, []⟩).refreshes = 0
      ∧ (list_items ⟨some "tok", 1000⟩ ⟨⟨0, false, "fresh", 3600⟩, 401, []⟩).requests = 1 := by
  decide

/-- C3 (amended): every gateway operation issues at most one request; a
4xx/5xx response (401 included) is surfaced immediately with no
response-triggered refresh and no retry; a credential refresh happens
exactly when `get_token` finds the cached token absent, empty or past its
(60-seconds-early) expiry.  The policy is trivially bounded: there is no
retry loop at all. -/
theorem list_items_single_request_policy (ts : TokenState) (env : ListEnv) :
    (list_items ts env).requests ≤ 1
      ∧ (list_items ts env).refreshes = (if tokenStale ts env.auth.now then 1 else 0)
      ∧ (400 ≤ env.status → env.status < 600 →
          (list_items ts env).outcome = ListOutcome.httpError env.status
            ∨ (list_items ts env).outcome = ListOutcome.authError) := by
  cases hst : tokenStale ts env.auth.now with
  | true =>
      cases hrf : env.auth.refreshFault with
      | true =>
          have hE : list_items ts env =
              { outcome := .authError, state := ts, refreshes := 1, requests := 0 } := by
            simp [list_items, get_token, hst, hrf]
          rw [hE]
          exact ⟨by norm_num, rfl, fun _ _ => Or.inr rfl⟩
      | false =>
          by_cases hs : 400 ≤ env.status ∧ env.status < 600
          · have hE : list_items ts env =
                { outcome := .httpError env.status,
                  state := { token := some env.auth.access_token,
                             expiry := env.auth.now + env.auth.expires_in - 60 },
                  refreshes := 1, requests := 1 } := by
              simp [list_items, get_token, hst, hrf, hs]
            rw [hE]
            exact ⟨le_refl 1, rfl, fun _ _ => Or.inl rfl⟩
          · have hE : list_items ts env =
                { outcome := .ok env.names,
                  state := { token := some env.auth.access_token,
                             expiry := env.auth.now + env.auth.expires_in - 60 },
                  refreshes := 1, requests := 1 } := by
              simp [list_items, get_token, hst, hrf, hs]
            rw [hE]
            exact ⟨le_refl 1, rfl, fun h1 h2 => absurd ⟨h1, h2⟩ hs⟩
  | false =>
      by_cases hs : 400 ≤ env.status ∧ env.status < 600
      · have hE : list_items ts env =
            { outcome := .httpError env.status, state := ts,
              refreshes := 0, requests := 1 } := by
          simp [list_items, get_token, hst, hs]
        rw [hE]
        exact ⟨le_refl 1, rfl, fun _ _ => Or.inl rfl⟩
      · have hE : list_items ts env =
            { outcome := .ok env.names, state := ts,
              refreshes := 0, requests := 1 } := by
          simp [list_items, get_token, hst, hs]
        rw [hE]
        exact ⟨le_refl 1, rfl, fun h1 h2 => absurd ⟨h1, h2⟩ hs⟩

/-- Witness for C3's amended theorem: a 500 response with a fresh cached
token is surfaced as an HTTP error after one single request. -/
theorem list_items_single_request_policy_witness :
    ((400 : ℕ) ≤ 500 ∧ (500 : ℕ) < 600)
      ∧ ((list_items ⟨some "tok", 1000⟩ ⟨⟨0, false, "fresh", 3600⟩, 500, []⟩).requests ≤ 1
        ∧ (list_items ⟨some "tok", 1000⟩ ⟨⟨0, false, "fresh", 3600⟩, 500, []⟩).refreshes
            = (if tokenStale ⟨some "tok", 1000⟩ 0 then 1 else 0)
        ∧ ((list_items ⟨some "tok", 1000⟩ ⟨⟨0, false, "fresh", 3600⟩, 500, []⟩).outcome
              = ListOutcome.httpError 500
            ∨ (list_items ⟨some "tok", 1000⟩ ⟨⟨0, false, "fresh", 3600⟩, 500, []⟩).outcome
              = ListOutcome.authError)) :=
  ⟨⟨by decide, by decide⟩,
    (list_items_single_request_policy ⟨some "tok", 1000⟩ ⟨⟨0, false, "fresh", 3600⟩, 500, []⟩).1,
    (list_items_single_request_policy ⟨some "tok", 1000⟩ ⟨⟨0, false, "fresh", 3600⟩, 500, []⟩).2.1,
    (list_items_single_request_policy ⟨some "tok", 1000⟩
        ⟨⟨0, false, "fresh", 3600⟩, 500, []⟩).2.2 (by decide) (by decide)⟩

/- ### The safe move orchestrator (client.py, SharePointClient.move_file) -/

/-- One auth or remote side effect issued by the client, in program
order: a `get_headers` call on the token manager, a GET (read-only), the
relocation PATCH, or a content-upload PUT with its content type. -/
inductive Effect
  | authFetch
  | getCall (target : String)
  | patchCall (itemPath destPath : String)
  | putCall (path contentType : String)
  deriving DecidableEq

/-- Whether the request can modify the remote store (PATCH or PUT). -/
def Effect.isMutation : Effect → Bool
  | .patchCall _ _ => true
  | .putCall _ _ => true
  | _ => false

/-- Whether the effect is the relocation PATCH. -/
def Effect.isPatch : Effect → Bool
  | .patchCall _ _ => true
  | _ => false

/-- Whether the effect is a content-upload PUT. -/
def Effect.isPut : Effect → Bool
  | .putCall _ _ => true
  | _ => false

/-- Which step of `move_file` raised. -/
inductive MoveErr
  | metaErr
  | downloadErr
  | tooLarge
  | conflict
  | destMetaErr
  | patchErr
  deriving DecidableEq

/-- What `move_file` hands back to its caller: the moved item's metadata
(name), the original exception re-raised at line 353 (after a recovery
that succeeded, `recovered = true`, or was skipped, `recovered = false`),
or the recovery exception re-raised at line 347 — Python chains the
original error onto it as its context, so the original error is
carried. -/
inductive MoveOutcome
  | moved (name : String)
  | raisedOriginal (e : MoveErr) (recovered : Bool)
  | raisedRecoveryErr (original : MoveErr)
  deriving DecidableEq

/-- Per-attempt environment of one `move_file` call: fault injection for
each remote request, the available-memory value queried by the size
guard during this attempt, and the HTTP status returned by the
destination existence probe. -/
structure MoveEnv where
  metaFault : Bool
  downloadFault : Bool
  availableBytes : ℕ
  destProbeStatus : ℕ
  destMetaFault : Bool
  patchFault : Bool
  recoveryFault : Bool
  deriving DecidableEq

/-- Result of one `move_file` call: the outcome signalled to the caller,
the final remote store, and the trace of issued side effects. -/
structure MoveResult where
  outcome : MoveOutcome
  store : Store
  trace : List Effect

/-- Source path `f"{source_folder}/{file_name}"` (client.py line 262). -/
def srcPath (source_folder file_name : String) : String :=
  source_folder ++ "/" ++ file_name

/-- Destination file name `new_file_name or file_name` (client.py line
259); Python `or` falls back for `None` and for the empty string. -/
def destFileName (new_file_name : Option String) (file_name : String) : String :=
  match new_file_name with
  | none => file_name
  | some s => if s = "" then file_name else s

/-- Destination path `f"{dest_folder}/{dest_file_name}"` (line 263). -/
def destPath (dest_folder : String) (new_file_name : Option String)
    (file_name : String) : String :=
  dest_folder ++ "/" ++ destFileName new_file_name file_name

/-- The `except` handler of `move_file` (client.py lines 322-353) once an
exception `e` has been raised with the content buffered as
`file_bytes`: recovery is attempted only `if file_bytes:` — Python
truthiness, false for `None` and for the empty byte string — and
re-uploads the buffered bytes to the original source path with
content-type `application/octet-stream` using freshly fetched headers;
a failing recovery PUT re-raises the recovery error (line 347), a
successful or skipped recovery re-raises the original error (line
353). -/
def recover (store : Store) (env : MoveEnv) (src_path : String)
    (file_bytes : Bytes) (e : MoveErr) (tr : List Effect) : MoveResult :=
  if file_bytes = [] then
    { outcome := .raisedOriginal e false, store := store, trace := tr }
  else if env.recoveryFault then
    { outcome := .raisedRecoveryErr e, store := store,
      trace := tr ++ [.authFetch, .putCall src_path "application/octet-stream"] }
  else
    { outcome := .raisedOriginal e true,
      store := fun p => if p = src_path then some file_bytes else store p,
      trace := tr ++ [.authFetch, .putCall src_path "application/octet-stream"] }

/-- Method `SharePointClient.move_file` (client.py lines 237-353).
Steps, with their line numbers: headers fetch (256), metadata GET via
`get_document` (269, itself fetching headers at line 63), content GET of
the download URL (278-280), size guard (282-287), destination existence
probe compared against status 200 exactly (290-296), destination-folder
metadata GET (299-303), relocation PATCH (306-315), and on any raise the
handler modelled by `recover`.  A failing remote call leaves the store
unchanged; a successful PATCH atomically removes the source path and
creates the destination path with the same bytes. -/
def move_file (store : Store) (env : MoveEnv)
    (source_folder file_name dest_folder : String)
    (new_file_name : Option String) : MoveResult :=
  let src_path := srcPath source_folder file_name
  let dest_path := destPath dest_folder new_file_name file_name
  if env.metaFault then
    { outcome := .raisedOriginal .metaErr false, store := store,
      trace := [.authFetch, .authFetch, .getCall src_path] }
  else
    match store src_path with
    | none =>
        { outcome := .raisedOriginal .metaErr false, store := store,
          trace := [.authFetch, .authFetch, .getCall src_path] }
    | some file_bytes =>
        if env.downloadFault then
          { outcome := .raisedOriginal .downloadErr false, store := store,
            trace := [.authFetch, .authFetch, .getCall src_path,
              .getCall ("download:" ++ src_path)] }
        else if (file_bytes.length : ℤ) >
            get_dynamic_max_safe_size env.availableBytes defaultFraction then
          recover store env src_path file_bytes .tooLarge
            [.authFetch, .authFetch, .getCall src_path,
              .getCall ("download:" ++ src_path)]
        else if env.destProbeStatus = 200 then
          recover store env src_path file_bytes .conflict
            [.authFetch, .authFetch, .getCall src_path,
              .getCall ("download:" ++ src_path), .getCall dest_path]
        else if env.destMetaFault then
          recover store env src_path file_bytes .destMetaErr
            [.authFetch, .authFetch, .getCall src_path,
              .getCall ("download:" ++ src_path), .getCall dest_path,
              .getCall dest_folder]
        else if env.patchFault then
          recover store env src_path file_bytes .patchErr
            [.authFetch, .authFetch, .getCall src_path,
              .getCall ("download:" ++ src_path), .getCall dest_path,
              .getCall dest_folder, .patchCall src_path dest_path]
        else
          { outcome := .moved (destFileName new_file_name file_name),
            store := fun p =>
              if p = dest_path then some file_bytes
              else if p = src_path then none
              else store p,
            trace := [.authFetch, .authFetch, .getCall src_path,
              .getCall ("download:" ++ src_path), .getCall dest_path,
              .getCall dest_folder, .patchCall src_path dest_path] }

/- ### Branch characterisations of move_file and recover -/

lemma recover_empty_eq (store : Store) (env : MoveEnv) (src : String)
    (bs : Bytes) (e : MoveErr) (tr : List Effect) (hbe : bs = []) :
    recover store env src bs e tr =
      { outcome := .raisedOriginal e false, store := store, trace := tr } := by
  simp [recover, hbe]

lemma recover_fault_eq (store : Store) (env : MoveEnv) (src : String)
    (bs : Bytes) (e : MoveErr) (tr : List Effect) (hbe : bs ≠ [])
    (hrf : env.recoveryFault = true) :
    recover store env src bs e tr =
      { outcome := .raisedRecoveryErr e, store := store,
        trace := tr ++ [.authFetch, .putCall src "application/octet-stream"] } := by
  simp [recover, hbe, hrf]

lemma recover_ok_eq (store : Store) (env : MoveEnv) (src : String)
    (bs : Bytes) (e : MoveErr) (tr : List Effect) (hbe : bs ≠ [])
    (hrf : env.recoveryFault = false) :
    recover store env src bs e tr =
      { outcome := .raisedOriginal e true,
        store := fun p => if p = src then some bs else store p,
        trace := tr ++ [.authFetch, .putCall src "application/octet-stream"] } := by
  simp [recover, hbe, hrf]

lemma move_file_meta_fault_eq (store : Store) (env : MoveEnv)
    (sf fn df : String) (nfn : Option String) (hm : env.metaFault = true) :
    move_file store env sf fn df nfn =
      { outcome := .raisedOriginal .metaErr false, store := store,
        trace := [.authFetch, .authFetch, .getCall (srcPath sf fn)] } := by
  simp [move_file, hm]

lemma move_file_src_missing_eq (store : Store) (env : MoveEnv)
    (sf fn df : String) (nfn : Option String) (hm : env.metaFault = false)
    (h2 : store (srcPath sf fn) = none) :
    move_file store env sf fn df nfn =
      { outcome := .raisedOriginal .metaErr false, store := store,
        trace := [.authFetch, .authFetch, .getCall (srcPath sf fn)] } := by
  simp [move_file, hm, h2]

lemma move_file_download_fault_eq (store : Store) (env : MoveEnv)
    (sf fn df : String) (nfn : Option String) (bs : Bytes)
    (hm : env.metaFault = false) (hsrc : store (srcPath sf fn) = some bs)
    (hd : env.downloadFault = true) :
    move_file store env sf fn df nfn =
      { outcome := .raisedOriginal .downloadErr false, store := store,
        trace := [.authFetch, .authFetch, .getCall (srcPath sf fn),
          .getCall ("download:" ++ srcPath sf fn)] } := by
  simp [move_file, hm, hsrc, hd]

lemma move_file_too_large_eq (store : Store) (env : MoveEnv)
    (sf fn df : String) (nfn : Option String) (bs : Bytes)
    (hm : env.metaFault = false) (hsrc : store (srcPath sf fn) = some bs)
    (hd : env.downloadFault = false)
    (hsz : (bs.length : ℤ) >
      get_dynamic_max_safe_size env.availableBytes defaultFraction) :
    move_file store env sf fn df nfn =
      recover store env (srcPath sf fn) bs .tooLarge
        [.authFetch, .authFetch, .getCall (srcPath sf fn),
          .getCall ("download:" ++ srcPath sf fn)] := by
  simp [move_file, hm, hsrc, hd, hsz]

lemma move_file_conflict_eq (store : Store) (env : MoveEnv)
    (sf fn df : String) (nfn : Option String) (bs : Bytes)
    (hm : env.metaFault = false) (hsrc : store (srcPath sf fn) = some bs)
    (hd : env.downloadFault = false)
    (hsz : ¬((bs.length : ℤ) >
      get_dynamic_max_safe_size env.availableBytes defaultFraction))
    (hps : env.destProbeStatus = 200) :
    move_file store env sf fn df nfn =
      recover store env (srcPath sf fn) bs .conflict
        [.authFetch, .authFetch, .getCall (srcPath sf fn),
          .getCall ("download:" ++ srcPath sf fn), .getCall (destPath df nfn fn)] := by
  simp [move_file, hm, hsrc, hd, hsz, hps]

lemma move_file_dest_meta_fault_eq (store : Store) (env : MoveEnv)
    (sf fn df : String) (nfn : Option String) (bs : Bytes)
    (hm : env.metaFault = false) (hsrc : store (srcPath sf fn) = some bs)
    (hd : env.downloadFault = false)
    (hsz : ¬((bs.length : ℤ) >
      get_dynamic_max_safe_size env.availableBytes defaultFraction))
    (hps : ¬(env.destProbeStatus = 200)) (hdm : env.destMetaFault = true) :
    move_file store env sf fn df nfn =
      recover store env (srcPath sf fn) bs .destMetaErr
        [.authFetch, .authFetch, .getCall (srcPath sf fn),
          .getCall ("download:" ++ srcPath sf fn), .getCall (destPath df nfn fn),
          .getCall df] := by
  simp [move_file, hm, hsrc, hd, hsz, hps, hdm]

lemma move_file_patch_fault_eq (store : Store) (env : MoveEnv)
    (sf fn df : String) (nfn : Option String) (bs : Bytes)
    (hm : env.metaFault = false) (hsrc : store (srcPath sf fn) = some bs)
    (hd : env.downloadFault = false)
    (hsz : ¬((bs.length : ℤ) >
      get_dynamic_max_safe_size env.availableBytes defaultFraction))
    (hps : ¬(env.destProbeStatus = 200)) (hdm : env.destMetaFault = false)
    (hpf : env.patchFault = true) :
    move_file store env sf fn df nfn =
      recover store env (srcPath sf fn) bs .patchErr
        [.authFetch, .authFetch, .getCall (srcPath sf fn),
          .getCall ("download:" ++ srcPath sf fn), .getCall (destPath df nfn fn),
          .getCall df, .patchCall (srcPath sf fn) (destPath df nfn fn)] := by
  simp [move_file, hm, hsrc, hd, hsz, hps, hdm, hpf]

lemma move_file_success_eq (store : Store) (env : MoveEnv)
    (sf fn df : String) (nfn : Option String) (bs : Bytes)
    (hm : env.metaFault = false) (hsrc : store (srcPath sf fn) = some bs)
    (hd : env.downloadFault = false)
    (hsz : ¬((bs.length : ℤ) >
      get_dynamic_max_safe_size env.availableBytes defaultFraction))
    (hps : ¬(env.destProbeStatus = 200)) (hdm : env.destMetaFault = false)
    (hpf : env.patchFault = false) :
    move_file store env sf fn df nfn =
      { outcome := .moved (destFileName nfn fn),
        store := fun p =>
          if p = destPath df nfn fn then some bs
          else if p = srcPath sf fn then none
          else store p,
        trace := [.authFetch, .authFetch, .getCall (srcPath sf fn),
          .getCall ("download:" ++ srcPath sf fn), .getCall (destPath df nfn fn),
          .getCall df, .patchCall (srcPath sf fn) (destPath df nfn fn)] } := by
  simp [move_file, hm, hsrc, hd, hsz, hps, hdm, hpf]

/- ### Claim C1: the end-state invariant of every move attempt -/

/-- Whatever the recovery handler does, the attempt ends either with a
re-raised original error and the file restored at the source (destination
untouched), or with the escalated recovery error. -/
lemma recover_cases (store : Store) (env : MoveEnv) (src dst : String)
    (bs : Bytes) (e : MoveErr) (tr : List Effect)
    (hsrc : store src = some bs) (hdst : store dst = none) (hne : src ≠ dst) :
    ((∃ e2 rec, (recover store env src bs e tr).outcome
          = MoveOutcome.raisedOriginal e2 rec)
        ∧ (recover store env src bs e tr).store src = some bs
        ∧ (recover store env src bs e tr).store dst = none)
      ∨ (∃ e2, (recover store env src bs e tr).outcome
          = MoveOutcome.raisedRecoveryErr e2) := by
  rcases eq_or_ne bs [] with hbe | hbe
  · rw [recover_empty_eq store env src bs e tr hbe]
    exact Or.inl ⟨⟨e, false, rfl⟩, hsrc, hdst⟩
  · cases hrf : env.recoveryFault with
    | true =>
        rw [recover_fault_eq store env src bs e tr hbe hrf]
        exact Or.inr ⟨e, rfl⟩
    | false =>
        rw [recover_ok_eq store env src bs e tr hbe hrf]
        refine Or.inl ⟨⟨e, true, rfl⟩, ?_, ?_⟩
        · simp
        · simp [hdst, Ne.symm hne]

/-- C1: at the end of every move attempt on an existing source file with
a free destination, exactly one of the following holds — (a) the move
succeeded and the file exists only at the destination path under the new
name, (b) an original error was re-raised and the file exists only at
the source path with its original content, or (c) the orchestrator
re-raises the recovery error, the fatal unrecovered escalation.  The
three cases are discriminated by the outcome constructor, so at most one
can hold. -/
theorem move_file_end_state_invariant (store : Store) (env : MoveEnv)
    (sf fn df : String) (nfn : Option String) (bs : Bytes) (r : MoveResult)
    (hr : r = move_file store env sf fn df nfn)
    (hsrc : store (srcPath sf fn) = some bs)
    (hdst : store (destPath df nfn fn) = none)
    (hne : srcPath sf fn ≠ destPath df nfn fn) :
    ((r.outcome = MoveOutcome.moved (destFileName nfn fn)
        ∧ r.store (srcPath sf fn) = none
        ∧ r.store (destPath df nfn fn) = some bs)
      ∨ ((∃ e rec, r.outcome = MoveOutcome.raisedOriginal e rec)
        ∧ r.store (srcPath sf fn) = some bs
        ∧ r.store (destPath df nfn fn) = none)
      ∨ (∃ e, r.outcome = MoveOutcome.raisedRecoveryErr e))
    ∧ ¬(r.outcome = MoveOutcome.moved (destFileName nfn fn)
        ∧ ∃ e rec, r.outcome = MoveOutcome.raisedOriginal e rec)
    ∧ ¬(r.outcome = MoveOutcome.moved (destFileName nfn fn)
        ∧ ∃ e, r.outcome = MoveOutcome.raisedRecoveryErr e)
    ∧ ¬((∃ e rec, r.outcome = MoveOutcome.raisedOriginal e rec)
        ∧ ∃ e, r.outcome = MoveOutcome.raisedRecoveryErr e) := by
  refine ⟨?_, ?_, ?_, ?_⟩
  · subst hr
    cases hm : env.metaFault with
    | true =>
        rw [move_file_meta_fault_eq store env sf fn df nfn hm]
        exact Or.inr (Or.inl ⟨⟨.metaErr, false, rfl⟩, hsrc, hdst⟩)
    | false =>
      cases hd : env.downloadFault with
      | true =>
          rw [move_file_download_fault_eq store env sf fn df nfn bs hm hsrc hd]
          exact Or.inr (Or.inl ⟨⟨.downloadErr, false, rfl⟩, hsrc, hdst⟩)
      | false =>
        by_cases hsz : (bs.length : ℤ) >
            get_dynamic_max_safe_size env.availableBytes defaultFraction
        · rw [move_file_too_large_eq store env sf fn df nfn bs hm hsrc hd hsz]
          exact Or.inr (recover_cases store env _ _ bs .tooLarge _ hsrc hdst hne)
        · by_cases hps : env.destProbeStatus = 200
          · rw [move_file_conflict_eq store env sf fn df nfn bs hm hsrc hd hsz hps]
            exact Or.inr (recover_cases store env _ _ bs .conflict _ hsrc hdst hne)
          · cases hdm : env.destMetaFault with
            | true =>
                rw [move_file_dest_meta_fault_eq store env sf fn df nfn bs
                  hm hsrc hd hsz hps hdm]
                exact Or.inr (recover_cases store env _ _ bs .destMetaErr _ hsrc hdst hne)
            | false =>
              cases hpf : env.patchFault with
              | true =>
                  rw [move_file_patch_fault_eq store env sf fn df nfn bs
                    hm hsrc hd hsz hps hdm hpf]
                  exact Or.inr (recover_cases store env _ _ bs .patchErr _ hsrc hdst hne)
              | false =>
                  rw [move_file_success_eq store env sf fn df nfn bs
                    hm hsrc hd hsz hps hdm hpf]
                  refine Or.inl ⟨rfl, ?_, ?_⟩
                  · simp [hne]
                  · simp
  · rintro ⟨h1, e, rec, h2⟩
    rw [h1] at h2
    exact MoveOutcome.noConfusion h2
  · rintro ⟨h1, e, h2⟩
    rw [h1] at h2
    exact MoveOutcome.noConfusion h2
  · rintro ⟨⟨e, rec, h1⟩, e2, h2⟩
    rw [h1] at h2
    exact MoveOutcome.noConfusion h2

/-- Concrete inputs for the witness of C1: an all-healthy run. -/
def sW1 : Store := fun p => if p = "F/a.csv" then some [1] else none

/-- Environment for the witness of C1: no faults, probe returns 404. -/
def eW1 : MoveEnv := ⟨false, false, 100, 404, false, false, false⟩

/-- Result of the witness run of C1. -/
def rW1 : MoveResult := move_file sW1 eW1 "F" "a.csv" "G" (some "b.csv")

/-- Witness for C1: on a healthy run the hypotheses are satisfiable and
the invariant is delivered for it. -/
theorem move_file_end_state_invariant_witness :
    (sW1 (srcPath "F" "a.csv") = some [1]
      ∧ sW1 (destPath "G" (some "b.csv") "a.csv") = none
      ∧ srcPath "F" "a.csv" ≠ destPath "G" (some "b.csv") "a.csv")
    ∧ ((rW1.outcome = MoveOutcome.moved (destFileName (some "b.csv") "a.csv")
          ∧ rW1.store (srcPath "F" "a.csv") = none
          ∧ rW1.store (destPath "G" (some "b.csv") "a.csv") = some [1])
        ∨ ((∃ e rec, rW1.outcome = MoveOutcome.raisedOriginal e rec)
          ∧ rW1.store (srcPath "F" "a.csv") = some [1]
          ∧ rW1.store (destPath "G" (some "b.csv") "a.csv") = none)
        ∨ (∃ e, rW1.outcome = MoveOutcome.raisedRecoveryErr e)) :=
  ⟨⟨by decide, by decide, by decide⟩,
    (move_file_end_state_invariant sW1 eW1 "F" "a.csv" "G" (some "b.csv") [1] rW1
      rfl (by decide) (by decide) (by decide)).1⟩

/- ### Claim C5: failed relocation, successful recovery -/

/-- C5: when the relocation PATCH fails after the (non-empty) content has
been buffered and the recovery re-upload succeeds, the source path again
holds the original bytes and the caller receives the original relocation
error re-raised, not a successful-looking return. -/
theorem move_file_patch_fail_recovery_restores (store : Store) (env : MoveEnv)
    (sf fn df : String) (nfn : Option String) (bs : Bytes) (r : MoveResult)
    (hr : r = move_file store env sf fn df nfn)
    (hsrc : store (srcPath sf fn) = some bs)
    (hbe : bs ≠ [])
    (hm : env.metaFault = false)
    (hd : env.downloadFault = false)
    (hsz : ¬((bs.length : ℤ) >
      get_dynamic_max_safe_size env.availableBytes defaultFraction))
    (hps : ¬(env.destProbeStatus = 200))
    (hdm : env.destMetaFault = false)
    (hpf : env.patchFault = true)
    (hrf : env.recoveryFault = false) :
    r.store (srcPath sf fn) = some bs
      ∧ r.outcome = MoveOutcome.raisedOriginal MoveErr.patchErr true := by
  subst hr
  rw [move_file_patch_fault_eq store env sf fn df nfn bs hm hsrc hd hsz hps hdm hpf,
    recover_ok_eq store env (srcPath sf fn) bs .patchErr _ hbe hrf]
  exact ⟨by simp, rfl⟩

/-- Concrete store for the witness of C5. -/
def sW5 : Store := fun p => if p = "F/a.csv" then some [1] else none

/-- Environment for the witness of C5: relocation PATCH fails, recovery
PUT succeeds. -/
def eW5 : MoveEnv := ⟨false, false, 100, 404, false, true, false⟩

/-- Witness for C5 at a concrete failing relocation. -/
theorem move_file_patch_fail_recovery_restores_witness :
    sW5 (srcPath "F" "a.csv") = some [1]
      ∧ ((move_file sW5 eW5 "F" "a.csv" "G" (some "b.csv")).store (srcPath "F" "a.csv")
            = some [1]
        ∧ (move_file sW5 eW5 "F" "a.csv" "G" (some "b.csv")).outcome
            = MoveOutcome.raisedOriginal MoveErr.patchErr true) :=
  ⟨by decide,
    move_file_patch_fail_recovery_restores sW5 eW5 "F" "a.csv" "G" (some "b.csv") [1] _
      rfl (by decide) (by decide) rfl rfl (by decide) (by decide) rfl rfl rfl⟩

/- ### Claim C6: failed recovery escalates with both errors visible -/

/-- C6: when the recovery re-upload itself fails, the caller observes the
re-raised recovery error — a distinct, fatal condition, not a plain
re-raised original error and not a success — and the original error is
carried on it (Python's implicit exception chaining). -/
theorem move_file_recovery_failure_escalates (store : Store) (env : MoveEnv)
    (sf fn df : String) (nfn : Option String) (bs : Bytes) (r : MoveResult)
    (hr : r = move_file store env sf fn df nfn)
    (hsrc : store (srcPath sf fn) = some bs)
    (hbe : bs ≠ [])
    (hm : env.metaFault = false)
    (hd : env.downloadFault = false)
    (hrf : env.recoveryFault = true)
    (hfail : (bs.length : ℤ) >
          get_dynamic_max_safe_size env.availableBytes defaultFraction
        ∨ env.destProbeStatus = 200
        ∨ env.destMetaFault = true
        ∨ env.patchFault = true) :
    r.outcome = MoveOutcome.raisedRecoveryErr
        (if (bs.length : ℤ) >
            get_dynamic_max_safe_size env.availableBytes defaultFraction
          then MoveErr.tooLarge
          else if env.destProbeStatus = 200 then MoveErr.conflict
          else if env.destMetaFault = true then MoveErr.destMetaErr
          else MoveErr.patchErr)
      ∧ (∀ e rec, r.outcome ≠ MoveOutcome.raisedOriginal e rec)
      ∧ (∀ n, r.outcome ≠ MoveOutcome.moved n) := by
  subst hr
  by_cases hsz : (bs.length : ℤ) >
      get_dynamic_max_safe_size env.availableBytes defaultFraction
  · rw [move_file_too_large_eq store env sf fn df nfn bs hm hsrc hd hsz,
      recover_fault_eq store env (srcPath sf fn) bs .tooLarge _ hbe hrf, if_pos hsz]
    exact ⟨rfl, fun e rec h => MoveOutcome.noConfusion h,
      fun n h => MoveOutcome.noConfusion h⟩
  · rw [if_neg hsz]
    by_cases hps : env.destProbeStatus = 200
    · rw [move_file_conflict_eq store env sf fn df nfn bs hm hsrc hd hsz hps,
        recover_fault_eq store env (srcPath sf fn) bs .conflict _ hbe hrf, if_pos hps]
      exact ⟨rfl, fun e rec h => MoveOutcome.noConfusion h,
        fun n h => MoveOutcome.noConfusion h⟩
    · rw [if_neg hps]
      cases hdm : env.destMetaFault with
      | true =>
          rw [move_file_dest_meta_fault_eq store env sf fn df nfn bs
              hm hsrc hd hsz hps hdm,
            recover_fault_eq store env (srcPath sf fn) bs .destMetaErr _ hbe hrf,
            if_pos rfl]
          exact ⟨rfl, fun e rec h => MoveOutcome.noConfusion h,
            fun n h => MoveOutcome.noConfusion h⟩
      | false =>
          have hpf : env.patchFault = true := by
            rcases hfail with h | h | h | h
            · exact absurd h hsz
            · exact absurd h hps
            · rw [hdm] at h; exact absurd h (by simp)
            · exact h
          rw [if_neg Bool.false_ne_true,
            move_file_patch_fault_eq store env sf fn df nfn bs
              hm hsrc hd hsz hps hdm hpf,
            recover_fault_eq store env (srcPath sf fn) bs .patchErr _ hbe hrf]
          exact ⟨rfl, fun e rec h => MoveOutcome.noConfusion h,
            fun n h => MoveOutcome.noConfusion h⟩

/-- Concrete store for the witness of C6. -/
def sW6 : Store := fun p => if p = "F/a.csv" then some [1] else none

/-- Environment for the witness of C6: relocation PATCH and recovery PUT
both fail. -/
def eW6 : MoveEnv := ⟨false, false, 100, 404, false, true, true⟩

/-- Witness for C6 at a concrete double failure. -/
theorem move_file_recovery_failure_escalates_witness :
    sW6 (srcPath "F" "a.csv") = some [1]
      ∧ (∀ e rec, (move_file sW6 eW6 "F" "a.csv" "G" none).outcome
          ≠ MoveOutcome.raisedOriginal e rec) :=
  ⟨by decide,
    (move_file_recovery_failure_escalates sW6 eW6 "F" "a.csv" "G" none [1] _
      rfl (by decide) (by decide) rfl rfl rfl (Or.inr (Or.inr (Or.inr rfl)))).2.1⟩

/- ### Claim C2: the recovery trigger and the empty-buffer defect -/

/-- C2 (code defect): a zero-byte source file is buffered
(`file_bytes = b""`), yet `if file_bytes:` is false for the empty byte
string, so when the relocation PATCH later fails the recovery re-upload
is skipped: the content GET is on the trace (the buffer exists) but no
PUT ever is, and the outcome records a skipped recovery — although the
method's docstring promises "If move fails, restores original file from
memory" and the inline comment reads "Attempt recovery only if file was
downloaded". -/
theorem move_file_empty_buffer_skips_recovery :
    (move_file (fun p => if p = "F/a.csv" then some [] else none)
        ⟨false, false, 100, 404, false, true, false⟩ "F" "a.csv" "G" none).outcome
      = MoveOutcome.raisedOriginal MoveErr.patchErr false
    ∧ (move_file (fun p => if p = "F/a.csv" then some [] else none)
        ⟨false, false, 100, 404, false, true, false⟩ "F" "a.csv" "G" none).trace.all
          (fun e => ! e.isPut) = true
    ∧ Effect.getCall ("download:" ++ "F/a.csv")
        ∈ (move_file (fun p => if p = "F/a.csv" then some [] else none)
            ⟨false, false, 100, 404, false, true, false⟩ "F" "a.csv" "G" none).trace := by
  decide

/- ### Claim C4: TooLarge refusals and the idempotent recovery PUT -/

/-- C4 (counterexample): a move refused as too large does not perform
zero mutating remote calls — the handler issues the recovery PUT (an
idempotent re-upload of the identical bytes back to the source path), so
one mutating call is on the wire even though nothing remote had
changed. -/
theorem move_file_toolarge_issues_recovery_put :
    Effect.putCall "F/a.csv" "application/octet-stream"
        ∈ (move_file (fun p => if p = "F/a.csv" then some [0] else none)
            ⟨false, false, 0, 404, false, false, false⟩ "F" "a.csv" "G" none).trace
      ∧ Effect.isMutation (Effect.putCall "F/a.csv" "application/octet-stream") = true
      ∧ (move_file (fun p => if p = "F/a.csv" then some [0] else none)
            ⟨false, false, 0, 404, false, false, false⟩ "F" "a.csv" "G" none).outcome
          = MoveOutcome.raisedOriginal MoveErr.tooLarge true := by
  decide

/-- C4 (amended): when the buffered size exceeds the ceiling the
operation fails with the TooLarge error as the original error (escalated
through the recovery error when the idempotent re-upload itself fails),
the relocation PATCH is never issued, and the remote store is left
pointwise unchanged: the destination stays absent and the source stays
present with unchanged content. -/
theorem move_file_toolarge_state_unchanged (store : Store) (env : MoveEnv)
    (sf fn df : String) (nfn : Option String) (bs : Bytes) (r : MoveResult)
    (hr : r = move_file store env sf fn df nfn)
    (hsrc : store (srcPath sf fn) = some bs)
    (hm : env.metaFault = false)
    (hd : env.downloadFault = false)
    (hsz : (bs.length : ℤ) >
      get_dynamic_max_safe_size env.availableBytes defaultFraction) :
    r.outcome = (if env.recoveryFault then MoveOutcome.raisedRecoveryErr MoveErr.tooLarge
        else MoveOutcome.raisedOriginal MoveErr.tooLarge true)
      ∧ (∀ p, r.store p = store p)
      ∧ r.trace.all (fun e => ! e.isPatch) = true := by
  have hbe : bs ≠ [] := by
    have h0 : (0 : ℤ) ≤ get_dynamic_max_safe_size env.availableBytes defaultFraction :=
      get_dynamic_max_safe_size_nonneg _ _
        (by norm_num [defaultFraction, Rat.mkRat_eq_div])
    intro hb
    rw [hb] at hsz
    norm_num at hsz
    exact absurd hsz (not_lt.mpr h0)
  subst hr
  rw [move_file_too_large_eq store env sf fn df nfn bs hm hsrc hd hsz]
  cases hrf : env.recoveryFault with
  | true =>
      rw [recover_fault_eq store env (srcPath sf fn) bs .tooLarge _ hbe hrf]
      exact ⟨by rw [if_pos rfl], fun p => rfl, by simp [Effect.isPatch]⟩
  | false =>
      rw [recover_ok_eq store env (srcPath sf fn) bs .tooLarge _ hbe hrf]
      refine ⟨by rw [if_neg Bool.false_ne_true], ?_, by simp [Effect.isPatch]⟩
      intro p
      by_cases hp : p = srcPath sf fn
      · simp [hp, hsrc]
      · simp [hp]

/-- Concrete store for the witness of C4's amended theorem. -/
def sW4 : Store := fun p => if p = "F/a.csv" then some [0] else none

/-- Environment for the witness of C4: zero available memory, no
faults. -/
def eW4 : MoveEnv := ⟨false, false, 0, 404, false, false, false⟩

/-- Witness for C4's amended theorem at a concrete oversized move. -/
theorem move_file_toolarge_state_unchanged_witness :
    ((([0] : Bytes).length : ℤ) >
        get_dynamic_max_safe_size eW4.availableBytes defaultFraction)
      ∧ (∀ p, (move_file sW4 eW4 "F" "a.csv" "G" none).store p = sW4 p) :=
  ⟨by decide,
    (move_file_toolarge_state_unchanged sW4 eW4 "F" "a.csv" "G" none [0] _ rfl
      (by decide) rfl rfl (by decide)).2.1⟩

/- ### Claim C9: read-only steps and the two possible mutating calls -/

/-- Whatever the recovery handler does, the trace either stays as it was
or gains exactly one header fetch and the recovery PUT at the end. -/
lemma recover_trace_or (store : Store) (env : MoveEnv) (src : String)
    (bs : Bytes) (e : MoveErr) (tr : List Effect) :
    (recover store env src bs e tr).trace = tr
      ∨ (recover store env src bs e tr).trace
        = tr ++ [Effect.authFetch, Effect.putCall src "application/octet-stream"] := by
  unfold recover
  split_ifs <;> simp

/-- The recovery handler never reports a successful move. -/
lemma recover_not_moved (store : Store) (env : MoveEnv) (src : String)
    (bs : Bytes) (e : MoveErr) (tr : List Effect) (n : String) :
    (recover store env src bs e tr).outcome ≠ MoveOutcome.moved n := by
  unfold recover
  split_ifs <;> simp

/-- If the mutations issued before the handler are within the single
relocation PATCH, the mutations of the whole failed attempt are within
that PATCH followed by the single recovery PUT. -/
lemma recover_frame (store : Store) (env : MoveEnv) (src dst : String)
    (bs : Bytes) (e : MoveErr) (tr : List Effect)
    (htr : (tr.filter Effect.isMutation).Sublist [Effect.patchCall src dst]) :
    ((recover store env src bs e tr).trace.filter Effect.isMutation).Sublist
      [Effect.patchCall src dst, Effect.putCall src "application/octet-stream"] := by
  rcases recover_trace_or store env src bs e tr with h | h
  · rw [h]
    exact htr.trans (List.Sublist.cons₂ _ (List.nil_sublist _))
  · have hf : ((tr ++ [Effect.authFetch,
          Effect.putCall src "application/octet-stream"]).filter Effect.isMutation)
        = tr.filter Effect.isMutation
            ++ [Effect.putCall src "application/octet-stream"] := by
      simp [Effect.isMutation]
    rw [h, hf]
    exact List.Sublist.append htr (List.Sublist.refl _)

/-- C9: in every move attempt the only mutating remote calls possibly
issued are the relocation PATCH and the recovery PUT of the identical
bytes to the source path, in that order — so every call before the
relocation (metadata fetch, content fetch, existence probe, parent
resolution) is read-only; on the happy path the PATCH is the single
mutating call, and a recovery PUT is only ever issued on a failed
attempt. -/
theorem move_file_mutation_frame (store : Store) (env : MoveEnv)
    (sf fn df : String) (nfn : Option String) :
    ((move_file store env sf fn df nfn).trace.filter Effect.isMutation).Sublist
        [Effect.patchCall (srcPath sf fn) (destPath df nfn fn),
          Effect.putCall (srcPath sf fn) "application/octet-stream"]
      ∧ ((move_file store env sf fn df nfn).outcome
            = MoveOutcome.moved (destFileName nfn fn) →
          (move_file store env sf fn df nfn).trace.filter Effect.isMutation
            = [Effect.patchCall (srcPath sf fn) (destPath df nfn fn)])
      ∧ (∀ p ct, Effect.putCall p ct ∈ (move_file store env sf fn df nfn).trace →
          ∀ n, (move_file store env sf fn df nfn).outcome ≠ MoveOutcome.moved n) := by
  cases hm : env.metaFault with
  | true =>
      rw [move_file_meta_fault_eq store env sf fn df nfn hm]
      refine ⟨by simp [Effect.isMutation], ?_, ?_⟩
      · intro h; simp at h
      · intro p ct hmem n h; simp at h
  | false =>
    cases hsr : store (srcPath sf fn) with
    | none =>
        rw [move_file_src_missing_eq store env sf fn df nfn hm hsr]
        refine ⟨by simp [Effect.isMutation], ?_, ?_⟩
        · intro h; simp at h
        · intro p ct hmem n h; simp at h
    | some bs =>
      cases hd : env.downloadFault with
      | true =>
          rw [move_file_download_fault_eq store env sf fn df nfn bs hm hsr hd]
          refine ⟨by simp [Effect.isMutation], ?_, ?_⟩
          · intro h; simp at h
          · intro p ct hmem n h; simp at h
      | false =>
        by_cases hsz : (bs.length : ℤ) >
            get_dynamic_max_safe_size env.availableBytes defaultFraction
        · rw [move_file_too_large_eq store env sf fn df nfn bs hm hsr hd hsz]
          refine ⟨recover_frame store env _ _ bs _ _ (by simp [Effect.isMutation]), ?_, ?_⟩
          · intro h; exact absurd h (recover_not_moved _ _ _ _ _ _ _)
          · intro p ct hmem n; exact recover_not_moved _ _ _ _ _ _ n
        · by_cases hps : env.destProbeStatus = 200
          · rw [move_file_conflict_eq store env sf fn df nfn bs hm hsr hd hsz hps]
            refine ⟨recover_frame store env _ _ bs _ _ (by simp [Effect.isMutation]), ?_, ?_⟩
            · intro h; exact absurd h (recover_not_moved _ _ _ _ _ _ _)
            · intro p ct hmem n; exact recover_not_moved _ _ _ _ _ _ n
          · cases hdm : env.destMetaFault with
            | true =>
                rw [move_file_dest_meta_fault_eq store env sf fn df nfn bs
                  hm hsr hd hsz hps hdm]
                refine ⟨recover_frame store env _ _ bs _ _
                    (by simp [Effect.isMutation]), ?_, ?_⟩
                · intro h; exact absurd h (recover_not_moved _ _ _ _ _ _ _)
                · intro p ct hmem n; exact recover_not_moved _ _ _ _ _ _ n
            | false =>
              cases hpf : env.patchFault with
              | true =>
                  rw [move_file_patch_fault_eq store env sf fn df nfn bs
                    hm hsr hd hsz hps hdm hpf]
                  refine ⟨recover_frame store env _ _ bs _ _
                      (by simp [Effect.isMutation]), ?_, ?_⟩
                  · intro h; exact absurd h (recover_not_moved _ _ _ _ _ _ _)
                  · intro p ct hmem n; exact recover_not_moved _ _ _ _ _ _ n
              | false =>
                  rw [move_file_success_eq store env sf fn df nfn bs
                    hm hsr hd hsz hps hdm hpf]
                  refine ⟨by simp [Effect.isMutation], fun _ => by simp [Effect.isMutation], ?_⟩
                  intro p ct hmem n h
                  simp at hmem

/-- Concrete store for the witness of C9. -/
def sW9 : Store := fun p => if p = "F/a.csv" then some [1] else none

/-- Environment for the witness of C9: an all-healthy run. -/
def eW9 : MoveEnv := ⟨false, false, 100, 404, false, false, false⟩

/-- Witness for C9: a successful run whose only mutating call is the
relocation PATCH. -/
theorem move_file_mutation_frame_witness :
    (move_file sW9 eW9 "F" "a.csv" "G" (some "b.csv")).outcome
        = MoveOutcome.moved (destFileName (some "b.csv") "a.csv")
      ∧ (move_file sW9 eW9 "F" "a.csv" "G" (some "b.csv")).trace.filter Effect.isMutation
        = [Effect.patchCall (srcPath "F" "a.csv") (destPath "G" (some "b.csv") "a.csv")] :=
  ⟨by decide,
    (move_file_mutation_frame sW9 eW9 "F" "a.csv" "G" (some "b.csv")).2.1 (by decide)⟩

/- ### Claim C10: the destination probe aborts exactly on status 200 -/

/-- C10 (counterexample): a destination probe answered with status 201 —
a success-class, non-404 response — does not abort the move: no Conflict
is raised, the relocation PATCH is issued and the move completes,
because the source compares the probe status against 200 only. -/
theorem move_file_probe_201_no_conflict :
    (move_file (fun p => if p = "F/a.csv" then some [7] else none)
        ⟨false, false, 100, 201, false, false, false⟩ "F" "a.csv" "G" (some "b.csv")).outcome
      = MoveOutcome.moved "b.csv"
    ∧ Effect.patchCall "F/a.csv" "G/b.csv"
        ∈ (move_file (fun p => if p = "F/a.csv" then some [7] else none)
            ⟨false, false, 100, 201, false, false, false⟩
            "F" "a.csv" "G" (some "b.csv")).trace := by
  decide

/-- The recovery handler of a non-Conflict error never reports a
Conflict, in either the original or the escalated form. -/
lemma recover_outcome_ne_conflict (store : Store) (env : MoveEnv) (src : String)
    (bs : Bytes) (e : MoveErr) (tr : List Effect) (he : e ≠ MoveErr.conflict) :
    (∀ rec, (recover store env src bs e tr).outcome
        ≠ MoveOutcome.raisedOriginal MoveErr.conflict rec)
      ∧ (recover store env src bs e tr).outcome
        ≠ MoveOutcome.raisedRecoveryErr MoveErr.conflict := by
  unfold recover
  split_ifs with h1 h2
  · exact ⟨fun rec h => by simp at h; exact he h.1, by intro h; simp at h⟩
  · exact ⟨fun rec h => by simp at h, by intro h; simp at h; exact he h⟩
  · exact ⟨fun rec h => by simp at h; exact he h.1, by intro h; simp at h⟩

/-- C10 (amended): the destination probe aborts with Conflict exactly
when it returns HTTP status 200; in that case the relocation is never
issued and the remote store ends pointwise unchanged (the only possible
mutating call is the idempotent re-upload of the identical source
bytes); any other probe status — other success codes such as 201 and
non-404 errors such as 500 alike — does not abort the move with a
Conflict. -/
theorem move_file_probe_conflict_iff_200 (store : Store) (env : MoveEnv)
    (sf fn df : String) (nfn : Option String) (bs : Bytes) (r : MoveResult)
    (hr : r = move_file store env sf fn df nfn)
    (hsrc : store (srcPath sf fn) = some bs)
    (hm : env.metaFault = false)
    (hd : env.downloadFault = false)
    (hsz : ¬((bs.length : ℤ) >
      get_dynamic_max_safe_size env.availableBytes defaultFraction)) :
    (env.destProbeStatus = 200 →
        ((∃ rec, r.outcome = MoveOutcome.raisedOriginal MoveErr.conflict rec)
            ∨ r.outcome = MoveOutcome.raisedRecoveryErr MoveErr.conflict)
          ∧ (∀ p, r.store p = store p)
          ∧ r.trace.all (fun e => ! e.isPatch) = true)
      ∧ (¬env.destProbeStatus = 200 →
          (∀ rec, r.outcome ≠ MoveOutcome.raisedOriginal MoveErr.conflict rec)
            ∧ r.outcome ≠ MoveOutcome.raisedRecoveryErr MoveErr.conflict) := by
  subst hr
  constructor
  · intro hps
    rw [move_file_conflict_eq store env sf fn df nfn bs hm hsrc hd hsz hps]
    rcases eq_or_ne bs [] with hbe | hbe
    · rw [recover_empty_eq store env (srcPath sf fn) bs .conflict _ hbe]
      exact ⟨Or.inl ⟨false, rfl⟩, fun p => rfl, by simp [Effect.isPatch]⟩
    · cases hrf : env.recoveryFault with
      | true =>
          rw [recover_fault_eq store env (srcPath sf fn) bs .conflict _ hbe hrf]
          exact ⟨Or.inr rfl, fun p => rfl, by simp [Effect.isPatch]⟩
      | false =>
          rw [recover_ok_eq store env (srcPath sf fn) bs .conflict _ hbe hrf]
          refine ⟨Or.inl ⟨true, rfl⟩, ?_, by simp [Effect.isPatch]⟩
          intro p
          by_cases hp : p = srcPath sf fn
          · simp [hp, hsrc]
          · simp [hp]
  · intro hps
    cases hdm : env.destMetaFault with
    | true =>
        rw [move_file_dest_meta_fault_eq store env sf fn df nfn bs hm hsrc hd hsz hps hdm]
        exact recover_outcome_ne_conflict store env _ bs _ _ (by decide)
    | false =>
      cases hpf : env.patchFault with
      | true =>
          rw [move_file_patch_fault_eq store env sf fn df nfn bs hm hsrc hd hsz hps hdm hpf]
          exact recover_outcome_ne_conflict store env _ bs _ _ (by decide)
      | false =>
          rw [move_file_success_eq store env sf fn df nfn bs hm hsrc hd hsz hps hdm hpf]
          exact ⟨fun rec h => by simp at h, by intro h; simp at h⟩

/-- Concrete store for the witness of C10's amended theorem. -/
def sW10 : Store := fun p => if p = "F/a.csv" then some [1] else none

/-- Environment for the witness of C10: the probe answers 200. -/
def eW10 : MoveEnv := ⟨false, false, 100, 200, false, false, false⟩

/-- Witness for C10's amended theorem at a concrete occupied
destination. -/
theorem move_file_probe_conflict_iff_200_witness :
    eW10.destProbeStatus = 200
      ∧ (((∃ rec, (move_file sW10 eW10 "F" "a.csv" "G" none).outcome
              = MoveOutcome.raisedOriginal MoveErr.conflict rec)
            ∨ (move_file sW10 eW10 "F" "a.csv" "G" none).outcome
              = MoveOutcome.raisedRecoveryErr MoveErr.conflict)
          ∧ (∀ p, (move_file sW10 eW10 "F" "a.csv" "G" none).store p = sW10 p)
          ∧ (move_file sW10 eW10 "F" "a.csv" "G" none).trace.all
              (fun e => ! e.isPatch) = true) :=
  ⟨rfl,
    (move_file_probe_conflict_iff_200 sW10 eW10 "F" "a.csv" "G" none [1] _ rfl
      (by decide) rfl rfl (by decide)).1 rfl⟩

end Wnm
